import Mathlib

/-!
The synchronisation engine of ntfy-clipboard (`copy.go`).

A shallow embedding of the message filter (`onMessage`), the publish path
(`sendClipboard`, `onHotkey`), the subscription loop (`wssConnect`) and the
shutdown hook (`onExit`) of `copy.go`.

The package-level variables `config`, `lastMsg` and `wsConn` are the fields of
`State`.  Every call that leaves the process (log line, clipboard, network,
sleep) is recorded, in order, as an `Event` appended to `State.trace`.  What the
outside world answers to such a call is not decided by the program: it is given
by an `Env` (results of library calls) and, for the subscription loop, by a
script of dial outcomes.
-/

namespace NtfyClipboard

/-! ## Data model -/

/-- The `Config` struct of `copy.go`. -/
structure Config where
  ClientName : String
  URLBase : String
  TOPIC : String
  Token : String
  Hotkeys : String
  deriving DecidableEq, Repr

/-- The `Message` struct of `copy.go`: a decoded inbound frame. -/
structure Message where
  Title : String
  Message : String
  deriving DecidableEq, Repr

/-- The payload of one websocket frame (`[]byte` in the source), kept as text. -/
abbrev Frame := String

/-- A websocket connection handle (`*websocket.Conn`), named by a number. -/
abbrev Conn := Nat

/-- An outbound HTTP request as built by `sendClipboard`: method, URL (the text of
`req.URL`, as parsed by `http.NewRequest`), body and the header entries in the order
of the `Header.Add` calls. -/
structure Request where
  method : String
  url : String
  body : String
  header : List (String × String)
  deriving DecidableEq, Repr

/-- What `client.Do` hands back when it returns no error: only the status code matters. -/
structure Response where
  status : Nat
  deriving DecidableEq, Repr

/-- One observable call made by the program. -/
inductive Event where
  /-- `log.Printf` / `log.Println` with the rendered line. -/
  | log (line : String)
  /-- `clipboard.WriteAll(text)`, together with the error it returned (if any). -/
  | clipboardWrite (text : String) (err : Option String)
  /-- `clipboard.ReadAll()`. -/
  | clipboardRead
  /-- `websocket.DefaultDialer.Dial(url, headers)`, together with the connection
  it returned (`none` when it returned an error). -/
  | dial (url : String) (headers : List (String × String)) (conn : Option Conn)
  /-- `time.Sleep(seconds * time.Second)`. -/
  | sleep (seconds : Nat)
  /-- `conn.ReadMessage()`. -/
  | read (conn : Conn)
  /-- `conn.Close()` on a websocket connection. -/
  | close (conn : Conn)
  /-- `client.Do(req)`. -/
  | httpDo (req : Request)
  /-- `resp.Body.Close()`. -/
  | bodyClose
  /-- `hook.End()`. -/
  | hookEnd
  deriving DecidableEq, Repr

/-- The package-level variables of `copy.go` plus the trace of calls made so far. -/
structure State where
  config : Config
  lastMsg : String
  wsConn : Option Conn
  trace : List Event
  deriving DecidableEq, Repr

/-- The state right after `main` has loaded the configuration: `lastMsg` and
`wsConn` hold their Go zero values and nothing has been observed yet. -/
def initState (cfg : Config) : State :=
  { config := cfg, lastMsg := "", wsConn := none, trace := [] }

/-- Answers of the libraries the program calls.  Results that may change from
call to call are functions of the trace observed so far. -/
structure Env where
  /-- The call `json.Unmarshal(message, &msg)`: the decoded struct, or the error. -/
  unmarshal : Frame → Except String Message
  /-- The call `clipboard.WriteAll(text)`: `none` on success, `some err` on failure. -/
  writeAll : List Event → String → Option String
  /-- The call `clipboard.ReadAll()`: the text and the (ignored) error. -/
  readAll : List Event → String × Option String
  /-- The call `url.URL{Scheme: "wss", Host: host, Path: path}.String()`. -/
  wssURL : String → String → String
  /-- The call `http.NewRequest(method, url, body)`: the URL held by the request it
  built (`req.URL.String()`, the argument `url` parsed and written out again), or
  the error when the request is not built (the URL does not parse). -/
  newRequest : String → String → Except String String
  /-- The call `client.Do(req)`: the response, or the transport error. -/
  clientDo : List Event → Request → Except String Response
  /-- The call `conn.Close()`: `none` on success, `some err` on failure. -/
  connClose : Conn → Option String

/-- Append events to the trace. -/
def State.emit (s : State) (es : List Event) : State :=
  { s with trace := s.trace ++ es }

/-! ## Observations on traces -/

/-- The arguments of all `clipboard.WriteAll` calls of a trace, in order. -/
def sinkWrites : List Event → List String
  | [] => []
  | .clipboardWrite text _ :: es => text :: sinkWrites es
  | _ :: es => sinkWrites es

/-- The arguments of the `clipboard.WriteAll` calls that returned no error. -/
def sinkSuccesses : List Event → List String
  | [] => []
  | .clipboardWrite text none :: es => text :: sinkSuccesses es
  | _ :: es => sinkSuccesses es

/-- The requests handed to `client.Do`, in order. -/
def requests : List Event → List Request
  | [] => []
  | .httpDo req :: es => req :: requests es
  | _ :: es => requests es

/-- The rendered log lines of a trace, in order. -/
def logLines : List Event → List String
  | [] => []
  | .log line :: es => line :: logLines es
  | _ :: es => logLines es

/-- The connections on which `Close` was called, in order. -/
def closes : List Event → List Conn
  | [] => []
  | .close c :: es => c :: closes es
  | _ :: es => closes es

/-- Number of `Dial` calls in a trace. -/
def dialCount : List Event → Nat
  | [] => 0
  | .dial _ _ _ :: es => dialCount es + 1
  | _ :: es => dialCount es

/-- The durations (in seconds) of the `time.Sleep` calls of a trace, in order. -/
def sleeps : List Event → List Nat
  | [] => []
  | .sleep n :: es => n :: sleeps es
  | _ :: es => sleeps es

/-- The connections on which `ReadMessage` was called, in order. -/
def reads : List Event → List Conn
  | [] => []
  | .read c :: es => c :: reads es
  | _ :: es => reads es

/-- First value stored under a header key. -/
def headerGet (h : List (String × String)) (key : String) : Option String :=
  (h.find? (fun kv => kv.1 == key)).map (fun kv => kv.2)

/-! ## `onMessage` -/

/-- The function `onMessage` of `copy.go`. -/
def onMessage (env : Env) (s : State) (message : Frame) : State :=
  match env.unmarshal message with
  | .error err => s.emit [.log ("消息解析失败： " ++ err)]
  | .ok msg =>
    if msg.Title = s.config.ClientName ∨ msg.Message = "" ∨ msg.Message = s.lastMsg then
      s
    else
      let s1 := { s with lastMsg := msg.Message }
      match env.writeAll s1.trace msg.Message with
      | some err =>
        s1.emit [.clipboardWrite msg.Message (some err), .log ("写入剪贴板错误： " ++ err)]
      | none => s1.emit [.clipboardWrite msg.Message none]

/-- Feed a finite sequence of frames to `onMessage`, one after the other. -/
def onMessages (env : Env) (s : State) (frames : List Frame) : State :=
  frames.foldl (onMessage env) s

/-! ## Publish path -/

/-- The function `sendClipboard` of `copy.go`. -/
def sendClipboard (env : Env) (s : State) (msg : String) : State :=
  match env.newRequest "PUT" ("https://" ++ s.config.URLBase ++ "/" ++ s.config.TOPIC) with
  | .error err => s.emit [.log ("创建请求错误: " ++ err)]
  | .ok reqURL =>
    let h0 : List (String × String) :=
      if s.config.Token ≠ "" then [("Authorization", "Bearer " ++ s.config.Token)] else []
    let h1 := h0 ++ [("Title", s.config.ClientName)]
    let req : Request := { method := "PUT", url := reqURL, body := msg, header := h1 }
    match env.clientDo s.trace req with
    | .error err => s.emit [.httpDo req, .log ("发送剪贴板内容错误: " ++ err)]
    | .ok _ => s.emit [.httpDo req, .bodyClose]

/-- The function `onHotkey` of `copy.go`. -/
def onHotkey (env : Env) (s : State) : State :=
  let clipboardContent := (env.readAll s.trace).1
  let s1 := s.emit [.clipboardRead]
  if clipboardContent ≠ "" then sendClipboard env s1 clipboardContent else s1

/-! ## Subscription loop -/

/-- What the network does with one `Dial` call of `wssConnect`. -/
inductive DialOutcome where
  /-- `Dial` returns the error `err`. -/
  | fail (err : String)
  /-- `Dial` returns the connection `conn`; `ReadMessage` then delivers `frames` one
  by one, after which the next `ReadMessage` returns the error `readErr`, or, when
  `readErr` is `none`, has not returned by the time the observation stops. -/
  | ok (conn : Conn) (frames : List Frame) (readErr : Option String)
  deriving DecidableEq, Repr

/-- Where `wssConnect` stands when the observation stops. -/
structure Loop where
  /-- Package-level variables and trace. -/
  state : State
  /-- The `conn.Close()` calls registered by `defer`, youngest first.  They run
  when `wssConnect` returns. -/
  deferred : List Conn
  /-- The connection held by the local variable `conn` if the loop is inside
  `ReadMessage`. -/
  conn : Option Conn
  deriving DecidableEq, Repr

/-- The inner `for` of `wssConnect` for the frames that `ReadMessage` delivers. -/
def readLoop (env : Env) (conn : Conn) : State → List Frame → State
  | s, [] => s
  | s, message :: rest => readLoop env conn (onMessage env (s.emit [.read conn]) message) rest

/-- Header set built at the top of each round of `wssConnect`. -/
def dialHeaders (cfg : Config) : List (String × String) :=
  if cfg.Token ≠ "" then [("Authorization", "Bearer " ++ cfg.Token)] else []

/-- The function `wssConnect` of `copy.go`, run against a script of dial outcomes.
The Go function never returns; the result describes the point reached when the
script is used up (before the next `Dial`) or when a `ReadMessage` stays pending. -/
def wssConnect (env : Env) : State → List Conn → List DialOutcome → Loop
  | s, deferred, [] => { state := s, deferred := deferred, conn := none }
  | s, deferred, .fail err :: script =>
    let u := env.wssURL s.config.URLBase (s.config.TOPIC ++ "/ws")
    wssConnect env
      (s.emit [.dial u (dialHeaders s.config) none,
               .log ("WebSocket 连接失败，5秒后重试: " ++ err),
               .sleep 5])
      deferred script
  | s, deferred, .ok conn frames readErr :: script =>
    let u := env.wssURL s.config.URLBase (s.config.TOPIC ++ "/ws")
    let s1 := s.emit [.dial u (dialHeaders s.config) (some conn),
                      .log "WebSocket 连接成功，开始监听消息"]
    let s2 := (readLoop env conn s1 frames).emit [.read conn]
    match readErr with
    | none => { state := s2, deferred := conn :: deferred, conn := some conn }
    | some err =>
      wssConnect env (s2.emit [.log ("读取消息错误: " ++ err)]) (conn :: deferred) script

/-- The function `onExit` of `copy.go`. -/
def onExit (env : Env) (s : State) : State :=
  let s1 :=
    match s.wsConn with
    | some c =>
      match env.connClose c with
      | some err => s.emit [.close c, .log ("关闭 WebSocket 出错: " ++ err)]
      | none => s.emit [.close c, .log "WebSocket 连接已成功关闭"]
    | none => s
  s1.emit [.hookEnd]

/-- Connections returned by successful `Dial` calls, in order. -/
def dialled : List Event → List Conn
  | [] => []
  | .dial _ _ (some c) :: es => c :: dialled es
  | _ :: es => dialled es

/-- Connections that were dialled and on which `Close` has not been called. -/
def openConns (es : List Event) : List Conn :=
  (dialled es).filter (fun c => !(closes es).contains c)

/-! ## Concrete environments used in the examples -/

/-- Whether a string holds an ASCII control character; `net/url` refuses to
parse such a URL. -/
def containsCTL (s : String) : Bool :=
  s.toList.any (fun c => c.toNat < 32 || c.toNat == 127)

/-- A decoder given by a finite table of frames and their decoded structs. -/
def tableUnmarshal (tbl : List (Frame × Message)) (f : Frame) : Except String Message :=
  match tbl.find? (fun p => p.1 == f) with
  | some p => .ok p.2
  | none => .error "invalid character"

/-- Writes every space of a text as `%20`. -/
def encodeSpaces : List Char → List Char
  | [] => []
  | c :: cs => if c.toNat = 32 then "%20".toList ++ encodeSpaces cs else c :: encodeSpaces cs

/-- What `http.NewRequest` does with an `https` URL, for the cases of the examples:
a URL with a control character, or with a space in the host, does not parse; a
space in the path is written `%20` in the URL of the request; anything else is kept. -/
def sampleNewRequest (url : String) : Except String String :=
  if containsCTL url then .error "net/url: invalid control character in URL"
  else if ((url.toList.drop 8).takeWhile (fun c => c.toNat != 47)).any (fun c => c.toNat == 32)
  then .error "invalid character in host name"
  else .ok (String.mk (encodeSpaces url.toList))

/-- An environment: frames decode by `tbl`, the clipboard holds `clip` and every
write to it returns `sinkErr`, every request gets the answer `answer`, and
`http.NewRequest` behaves as `sampleNewRequest`. -/
def sampleEnv (tbl : List (Frame × Message)) (clip : String) (sinkErr : Option String)
    (answer : Except String Response) : Env :=
  { unmarshal := tableUnmarshal tbl
    writeAll := fun _ _ => sinkErr
    readAll := fun _ => (clip, none)
    wssURL := fun host path => "wss://" ++ host ++ "/" ++ path
    newRequest := fun _ url => sampleNewRequest url
    clientDo := fun _ _ => answer
    connClose := fun _ => none }

/-- The default configuration of `copy.go`, with client name `A`. -/
def cfgA : Config :=
  { ClientName := "A", URLBase := "ntfy.sh", TOPIC := "t", Token := "", Hotkeys := "ctrl,shift,x" }

/-- The frame with title `B` and message `hello`. -/
def frameHello : Frame := "\x7b\"title\":\"B\",\"message\":\"hello\"\x7d"

/-- The frame with title `B` and message `world`. -/
def frameWorld : Frame := "\x7b\"title\":\"B\",\"message\":\"world\"\x7d"

/-- The decoding table of the two sample frames. -/
def sampleTable : List (Frame × Message) :=
  [(frameHello, { Title := "B", Message := "hello" }),
   (frameWorld, { Title := "B", Message := "world" })]

/-- The environment of the examples in which every clipboard write succeeds. -/
def envOk : Env := sampleEnv sampleTable "xyz" none (.ok { status := 200 })

/-- The environment of the examples in which every clipboard write fails. -/
def envSinkFails : Env := sampleEnv sampleTable "xyz" (some "clipboard locked") (.ok { status := 200 })

/-- The environment of the examples in which every request meets a transport error. -/
def envNetDown : Env :=
  sampleEnv sampleTable "xyz" none (.error "dial tcp: connection refused")

/-- The environment of the examples in which the relay answers every request with status 500. -/
def envStatus500 : Env := sampleEnv sampleTable "xyz" none (.ok { status := 500 })

/-- A configuration with a token. -/
def cfgToken : Config := { cfgA with Token := "tk_secret" }

/-- A configuration whose relay host ends in a line feed. -/
def cfgLineFeed : Config := { cfgA with URLBase := "ntfy.sh\n" }

/-- A configuration whose topic holds a space. -/
def cfgSpace : Config := { cfgA with TOPIC := "my topic" }

/-- The request described by the specification for the clipboard text `t`, given the
URL `reqURL` that `http.NewRequest` made of `https://URLBase/TOPIC`: method `PUT`,
that URL, body `t`, header `Title` set to the client name, header `Authorization`
set to `Bearer Token` when the token is non-empty. -/
def expectedRequest (cfg : Config) (reqURL : String) (t : String) : Request :=
  { method := "PUT"
    url := reqURL
    body := t
    header :=
      (if cfg.Token = "" then [] else [("Authorization", "Bearer " ++ cfg.Token)]) ++
        [("Title", cfg.ClientName)] }

/-- The events of a run of failed `Dial` calls with errors `errs`: each call is
followed by its log line and one sleep of 5 seconds. -/
def failedRounds (u : String) (h : List (String × String)) : List String → List Event
  | [] => []
  | err :: errs =>
    .dial u h none :: .log ("WebSocket 连接失败，5秒后重试: " ++ err) :: .sleep 5 ::
      failedRounds u h errs

/-! ## Lemmas on trace observations -/

theorem sinkWrites_append (a b : List Event) :
    sinkWrites (a ++ b) = sinkWrites a ++ sinkWrites b := by
  induction a with
  | nil => rfl
  | cons e es ih => cases e <;> simp [sinkWrites, ih]

theorem sinkSuccesses_append (a b : List Event) :
    sinkSuccesses (a ++ b) = sinkSuccesses a ++ sinkSuccesses b := by
  induction a with
  | nil => rfl
  | cons e es ih =>
    cases e with
    | clipboardWrite t err => cases err <;> simp [sinkSuccesses, ih]
    | _ => simp [sinkSuccesses, ih]

theorem requests_append (a b : List Event) :
    requests (a ++ b) = requests a ++ requests b := by
  induction a with
  | nil => rfl
  | cons e es ih => cases e <;> simp [requests, ih]

theorem logLines_append (a b : List Event) :
    logLines (a ++ b) = logLines a ++ logLines b := by
  induction a with
  | nil => rfl
  | cons e es ih => cases e <;> simp [logLines, ih]

theorem closes_append (a b : List Event) :
    closes (a ++ b) = closes a ++ closes b := by
  induction a with
  | nil => rfl
  | cons e es ih => cases e <;> simp [closes, ih]

theorem dialCount_append (a b : List Event) :
    dialCount (a ++ b) = dialCount a + dialCount b := by
  induction a with
  | nil => simp [dialCount]
  | cons e es ih => cases e <;> simp [dialCount, ih]; omega

theorem sleeps_append (a b : List Event) :
    sleeps (a ++ b) = sleeps a ++ sleeps b := by
  induction a with
  | nil => rfl
  | cons e es ih => cases e <;> simp [sleeps, ih]

theorem reads_append (a b : List Event) :
    reads (a ++ b) = reads a ++ reads b := by
  induction a with
  | nil => rfl
  | cons e es ih => cases e <;> simp [reads, ih]

/-! ## The message filter -/

/-- What `onMessage` does with a frame that decodes and passes the three tests. -/
theorem onMessage_of_accept (env : Env) (s : State) (frame : Frame) (m : Message)
    (hdec : env.unmarshal frame = .ok m)
    (hTitle : m.Title ≠ s.config.ClientName)
    (hBody : m.Message ≠ "")
    (hLast : m.Message ≠ s.lastMsg) :
    onMessage env s frame =
      match env.writeAll s.trace m.Message with
      | some err =>
        { s with
          lastMsg := m.Message
          trace := s.trace ++
            [.clipboardWrite m.Message (some err), .log ("写入剪贴板错误： " ++ err)] }
      | none =>
        { s with lastMsg := m.Message, trace := s.trace ++ [.clipboardWrite m.Message none] } := by
  unfold onMessage
  simp only [hdec, hTitle, hBody, hLast, or_self, if_false]
  cases env.writeAll s.trace m.Message <;> rfl

/-- What `onMessage` does with a frame that decodes and fails one of the three tests. -/
theorem onMessage_of_reject (env : Env) (s : State) (frame : Frame) (m : Message)
    (hdec : env.unmarshal frame = .ok m)
    (h : m.Title = s.config.ClientName ∨ m.Message = "" ∨ m.Message = s.lastMsg) :
    onMessage env s frame = s := by
  unfold onMessage
  simp only [hdec, h, if_true]

/-- The function `onMessage` touches `lastMsg` and appends to the trace, and what
it appends holds no `Close`, no `Dial`, no `Sleep` and no `ReadMessage`. -/
theorem onMessage_frame (env : Env) (s : State) (frame : Frame) :
    ∃ l es, onMessage env s frame = { s with lastMsg := l, trace := s.trace ++ es } ∧
      closes es = [] ∧ dialCount es = 0 ∧ sleeps es = [] ∧ reads es = [] := by
  unfold onMessage
  split
  · exact ⟨s.lastMsg, _, rfl, rfl, rfl, rfl, rfl⟩
  · split
    · exact ⟨s.lastMsg, [], by simp, rfl, rfl, rfl, rfl⟩
    · dsimp only
      split
      · exact ⟨_, _, rfl, rfl, rfl, rfl, rfl⟩
      · exact ⟨_, _, rfl, rfl, rfl, rfl, rfl⟩

/-- The configuration is never written by `onMessage`. -/
theorem onMessage_config (env : Env) (s : State) (frame : Frame) :
    (onMessage env s frame).config = s.config := by
  obtain ⟨l, es, h, _⟩ := onMessage_frame env s frame
  rw [h]

/-- The variable `wsConn` is never written by `onMessage`. -/
theorem onMessage_wsConn (env : Env) (s : State) (frame : Frame) :
    (onMessage env s frame).wsConn = s.wsConn := by
  obtain ⟨l, es, h, _⟩ := onMessage_frame env s frame
  rw [h]

/-- The function `onMessage` only appends to the trace. -/
theorem onMessage_trace_prefix (env : Env) (s : State) (frame : Frame) :
    s.trace <+: (onMessage env s frame).trace := by
  obtain ⟨l, es, h, _⟩ := onMessage_frame env s frame
  rw [h]
  exact List.prefix_append _ _

/-- The function `onMessage` never calls `Close`. -/
theorem onMessage_closes (env : Env) (s : State) (frame : Frame) :
    closes (onMessage env s frame).trace = closes s.trace := by
  obtain ⟨l, es, h, hc, _⟩ := onMessage_frame env s frame
  rw [h]
  simp [closes_append, hc]

/-- After an accepted frame `lastMsg` is its body and one clipboard write, of that
body, has been added. -/
theorem onMessage_lastMsg_of_accept (env : Env) (s : State) (frame : Frame) (m : Message)
    (hdec : env.unmarshal frame = .ok m)
    (hTitle : m.Title ≠ s.config.ClientName)
    (hBody : m.Message ≠ "")
    (hLast : m.Message ≠ s.lastMsg) :
    (onMessage env s frame).lastMsg = m.Message ∧
    sinkWrites (onMessage env s frame).trace = sinkWrites s.trace ++ [m.Message] := by
  rw [onMessage_of_accept env s frame m hdec hTitle hBody hLast]
  cases env.writeAll s.trace m.Message <;> simp [sinkWrites_append, sinkWrites]

/-- Either `onMessage` leaves `lastMsg` and the clipboard alone, or it writes one
body, different from the previous `lastMsg`, and stores it in `lastMsg`. -/
theorem onMessage_cases (env : Env) (s : State) (frame : Frame) :
    ((onMessage env s frame).lastMsg = s.lastMsg ∧
      sinkWrites (onMessage env s frame).trace = sinkWrites s.trace) ∨
    (∃ b, b ≠ s.lastMsg ∧ (onMessage env s frame).lastMsg = b ∧
      sinkWrites (onMessage env s frame).trace = sinkWrites s.trace ++ [b]) := by
  rcases hdec : env.unmarshal frame with err | m
  · left
    unfold onMessage
    rw [hdec]
    simp [State.emit, sinkWrites_append, sinkWrites]
  · by_cases h : m.Title = s.config.ClientName ∨ m.Message = "" ∨ m.Message = s.lastMsg
    · left
      rw [onMessage_of_reject env s frame m hdec h]
      exact ⟨rfl, rfl⟩
    · right
      simp only [not_or] at h
      exact ⟨m.Message, h.2.2,
        onMessage_lastMsg_of_accept env s frame m hdec h.1 h.2.1 h.2.2⟩

/-- C1: a decoded message whose title differs from the client name, whose body is
non-empty and differs from `lastMsg`, is accepted: afterwards `lastMsg` is the body,
and the trace has grown by exactly one clipboard write, of that body. -/
theorem onMessage_accepts (env : Env) (s : State) (frame : Frame) (m : Message)
    (hdec : env.unmarshal frame = .ok m)
    (hTitle : m.Title ≠ s.config.ClientName)
    (hBody : m.Message ≠ "")
    (hLast : m.Message ≠ s.lastMsg) :
    (onMessage env s frame).lastMsg = m.Message ∧
    s.trace <+: (onMessage env s frame).trace ∧
    sinkWrites (onMessage env s frame).trace = sinkWrites s.trace ++ [m.Message] := by
  have h := onMessage_lastMsg_of_accept env s frame m hdec hTitle hBody hLast
  exact ⟨h.1, onMessage_trace_prefix env s frame, h.2⟩

/-- Witness of C1: scenario 1 of the specification (client `A`, frame from `B` with body `hello`). -/
theorem onMessage_accepts_witness :
    (onMessage envOk (initState cfgA) frameHello).lastMsg = "hello" ∧
    (initState cfgA).trace <+: (onMessage envOk (initState cfgA) frameHello).trace ∧
    sinkWrites (onMessage envOk (initState cfgA) frameHello).trace =
      sinkWrites (initState cfgA).trace ++ ["hello"] :=
  onMessage_accepts envOk (initState cfgA) frameHello { Title := "B", Message := "hello" }
    (by rfl) (by decide) (by decide) (by decide)

/-- C2: a decoded message whose title is the client name, or whose body is empty or
equal to `lastMsg`, is rejected: the whole state, trace included, is unchanged. -/
theorem onMessage_rejects (env : Env) (s : State) (frame : Frame) (m : Message)
    (hdec : env.unmarshal frame = .ok m)
    (h : m.Title = s.config.ClientName ∨ m.Message = "" ∨ m.Message = s.lastMsg) :
    onMessage env s frame = s ∧
    (onMessage env s frame).lastMsg = s.lastMsg ∧
    sinkWrites (onMessage env s frame).trace = sinkWrites s.trace := by
  rw [onMessage_of_reject env s frame m hdec h]
  exact ⟨rfl, rfl, rfl⟩

/-- Witness of C2: a frame titled with the own client name (`B` here) is an echo. -/
theorem onMessage_rejects_witness :
    onMessage envOk (initState { cfgA with ClientName := "B" }) frameWorld =
      initState { cfgA with ClientName := "B" } ∧
    (onMessage envOk (initState { cfgA with ClientName := "B" }) frameWorld).lastMsg =
      (initState { cfgA with ClientName := "B" }).lastMsg ∧
    sinkWrites (onMessage envOk (initState { cfgA with ClientName := "B" }) frameWorld).trace =
      sinkWrites (initState { cfgA with ClientName := "B" }).trace :=
  onMessage_rejects envOk (initState { cfgA with ClientName := "B" }) frameWorld
    { Title := "B", Message := "world" } (by rfl) (Or.inl (by decide))

/-- C3: when `onMessage` accepts a frame, a second run on the same frame right
afterwards changes nothing: the two runs end in the state of the single run, with
one clipboard write in total. -/
theorem onMessage_idempotent (env : Env) (s : State) (frame : Frame) (m : Message)
    (hdec : env.unmarshal frame = .ok m)
    (hTitle : m.Title ≠ s.config.ClientName)
    (hBody : m.Message ≠ "")
    (hLast : m.Message ≠ s.lastMsg) :
    onMessage env (onMessage env s frame) frame = onMessage env s frame ∧
    (onMessage env (onMessage env s frame) frame).lastMsg = m.Message ∧
    sinkWrites (onMessage env (onMessage env s frame) frame).trace =
      sinkWrites s.trace ++ [m.Message] := by
  have hacc := onMessage_lastMsg_of_accept env s frame m hdec hTitle hBody hLast
  have hrej : onMessage env (onMessage env s frame) frame = onMessage env s frame :=
    onMessage_of_reject env _ frame m hdec (Or.inr (Or.inr hacc.1.symm))
  rw [hrej]
  exact ⟨rfl, hacc.1, hacc.2⟩

/-- Witness of C3: scenarios 1 and 2 of the specification, run back to back. -/
theorem onMessage_idempotent_witness :
    onMessage envOk (onMessage envOk (initState cfgA) frameHello) frameHello =
      onMessage envOk (initState cfgA) frameHello ∧
    (onMessage envOk (onMessage envOk (initState cfgA) frameHello) frameHello).lastMsg =
      "hello" ∧
    sinkWrites (onMessage envOk (onMessage envOk (initState cfgA) frameHello) frameHello).trace =
      sinkWrites (initState cfgA).trace ++ ["hello"] :=
  onMessage_idempotent envOk (initState cfgA) frameHello { Title := "B", Message := "hello" }
    (by rfl) (by decide) (by decide) (by decide)

/-- C10: when an accepted message meets a failing `clipboard.WriteAll`, `lastMsg` is
the body all the same; the same frame delivered again right away is rejected, so
that over both runs no clipboard write has succeeded. -/
theorem onMessage_sink_failure (env : Env) (s : State) (frame : Frame) (m : Message)
    (err : String)
    (hdec : env.unmarshal frame = .ok m)
    (hTitle : m.Title ≠ s.config.ClientName)
    (hBody : m.Message ≠ "")
    (hLast : m.Message ≠ s.lastMsg)
    (hfail : env.writeAll s.trace m.Message = some err) :
    (onMessage env s frame).lastMsg = m.Message ∧
    (onMessage env s frame).trace =
      s.trace ++ [.clipboardWrite m.Message (some err), .log ("写入剪贴板错误： " ++ err)] ∧
    onMessage env (onMessage env s frame) frame = onMessage env s frame ∧
    sinkSuccesses (onMessage env (onMessage env s frame) frame).trace =
      sinkSuccesses s.trace := by
  have hacc := onMessage_lastMsg_of_accept env s frame m hdec hTitle hBody hLast
  have hrej : onMessage env (onMessage env s frame) frame = onMessage env s frame :=
    onMessage_of_reject env _ frame m hdec (Or.inr (Or.inr hacc.1.symm))
  have hstep := onMessage_of_accept env s frame m hdec hTitle hBody hLast
  rw [hfail] at hstep
  rw [hrej, hstep]
  refine ⟨rfl, rfl, rfl, ?_⟩
  simp [sinkSuccesses_append, sinkSuccesses]

/-- Witness of C10: the frame `hello` with a clipboard that refuses every write. -/
theorem onMessage_sink_failure_witness :
    (onMessage envSinkFails (initState cfgA) frameHello).lastMsg = "hello" ∧
    (onMessage envSinkFails (initState cfgA) frameHello).trace =
      (initState cfgA).trace ++
        [.clipboardWrite "hello" (some "clipboard locked"),
         .log ("写入剪贴板错误： " ++ "clipboard locked")] ∧
    onMessage envSinkFails (onMessage envSinkFails (initState cfgA) frameHello) frameHello =
      onMessage envSinkFails (initState cfgA) frameHello ∧
    sinkSuccesses
        (onMessage envSinkFails (onMessage envSinkFails (initState cfgA) frameHello)
          frameHello).trace =
      sinkSuccesses (initState cfgA).trace :=
  onMessage_sink_failure envSinkFails (initState cfgA) frameHello
    { Title := "B", Message := "hello" } "clipboard locked"
    (by rfl) (by decide) (by decide) (by decide) (by rfl)

/-! ## Sequences of frames -/

/-- One step of `onMessage` keeps two facts together: no two neighbouring clipboard
writes carry the same body, and the last body written is `lastMsg`. -/
theorem onMessage_preserves_distinct (env : Env) (s : State) (frame : Frame)
    (hch : List.Chain' (fun a b => a ≠ b) (sinkWrites s.trace))
    (hlast : ∀ x ∈ (sinkWrites s.trace).getLast?, x = s.lastMsg) :
    List.Chain' (fun a b => a ≠ b) (sinkWrites (onMessage env s frame).trace) ∧
    ∀ x ∈ (sinkWrites (onMessage env s frame).trace).getLast?,
      x = (onMessage env s frame).lastMsg := by
  rcases onMessage_cases env s frame with ⟨hl, hw⟩ | ⟨b, hb, hl, hw⟩
  · rw [hl, hw]
    exact ⟨hch, hlast⟩
  · rw [hl, hw]
    constructor
    · rw [List.chain'_append]
      refine ⟨hch, List.chain'_singleton b, ?_⟩
      intro x hx y hy
      simp only [List.head?_cons, Option.mem_def, Option.some.injEq] at hy
      subst hy
      rw [hlast x hx]
      exact fun h => hb h.symm
    · intro x hx
      simpa using hx.symm

/-- The two facts of `onMessage_preserves_distinct` survive any sequence of frames. -/
theorem onMessages_preserves_distinct (env : Env) (frames : List Frame) :
    ∀ s : State,
      List.Chain' (fun a b => a ≠ b) (sinkWrites s.trace) →
      (∀ x ∈ (sinkWrites s.trace).getLast?, x = s.lastMsg) →
      List.Chain' (fun a b => a ≠ b) (sinkWrites (onMessages env s frames).trace) ∧
      ∀ x ∈ (sinkWrites (onMessages env s frames).trace).getLast?,
        x = (onMessages env s frames).lastMsg := by
  induction frames with
  | nil => intro s hch hlast; exact ⟨hch, hlast⟩
  | cons f fs ih =>
    intro s hch hlast
    have h := onMessage_preserves_distinct env s f hch hlast
    exact ih (onMessage env s f) h.1 h.2

/-- C4, as the code has it: over any finite sequence of frames processed from the
initial state, no two consecutive clipboard writes carry the same body. -/
theorem onMessages_no_consecutive_repeat (env : Env) (cfg : Config) (frames : List Frame) :
    List.Chain' (fun a b => a ≠ b)
      (sinkWrites (onMessages env (initState cfg) frames).trace) :=
  (onMessages_preserves_distinct env frames (initState cfg) List.chain'_nil
    (by intro x hx; simp [initState, sinkWrites] at hx)).1

/-- C4 fails as stated: the frames `hello`, `world`, `hello` from sender `B`, processed
from the initial state of client `A`, write the body `hello` to the clipboard twice. -/
theorem onMessages_writes_body_twice :
    sinkWrites (onMessages envOk (initState cfgA) [frameHello, frameWorld, frameHello]).trace =
      ["hello", "world", "hello"] ∧
    (sinkWrites
      (onMessages envOk (initState cfgA) [frameHello, frameWorld, frameHello]).trace).count
        "hello" = 2 := by
  decide

/-! ## The publish path -/

/-- When `http.NewRequest` builds the request, `sendClipboard` hands the request of
`expectedRequest` to `client.Do` and logs a transport error. -/
theorem sendClipboard_of_built (env : Env) (s : State) (msg reqURL : String)
    (hreq : env.newRequest "PUT" ("https://" ++ s.config.URLBase ++ "/" ++ s.config.TOPIC) = .ok reqURL) :
    sendClipboard env s msg =
      match env.clientDo s.trace (expectedRequest s.config reqURL msg) with
      | .error err =>
        s.emit [.httpDo (expectedRequest s.config reqURL msg),
                .log ("发送剪贴板内容错误: " ++ err)]
      | .ok _ => s.emit [.httpDo (expectedRequest s.config reqURL msg), .bodyClose] := by
  unfold sendClipboard expectedRequest
  simp only [hreq]
  by_cases ht : s.config.Token = "" <;> simp [ht]

/-- When `http.NewRequest` returns an error, `sendClipboard` logs it and stops. -/
theorem sendClipboard_of_refused (env : Env) (s : State) (msg err : String)
    (hreq : env.newRequest "PUT" ("https://" ++ s.config.URLBase ++ "/" ++ s.config.TOPIC) = .error err) :
    sendClipboard env s msg = s.emit [.log ("创建请求错误: " ++ err)] := by
  unfold sendClipboard
  simp only [hreq]

/-- The requests and the log lines added by `sendClipboard`, by outcome of
`http.NewRequest` and `client.Do`. -/
theorem sendClipboard_observed (env : Env) (s : State) (msg : String) :
    requests (sendClipboard env s msg).trace =
      requests s.trace ++
        (match env.newRequest "PUT" ("https://" ++ s.config.URLBase ++ "/" ++ s.config.TOPIC) with
         | .error _ => []
         | .ok reqURL => [expectedRequest s.config reqURL msg]) ∧
    logLines (sendClipboard env s msg).trace =
      logLines s.trace ++
        (match env.newRequest "PUT" ("https://" ++ s.config.URLBase ++ "/" ++ s.config.TOPIC) with
         | .error err => ["创建请求错误: " ++ err]
         | .ok reqURL =>
           match env.clientDo s.trace (expectedRequest s.config reqURL msg) with
           | .error err => ["发送剪贴板内容错误: " ++ err]
           | .ok _ => []) := by
  rcases hreq : env.newRequest "PUT" ("https://" ++ s.config.URLBase ++ "/" ++ s.config.TOPIC) with err | reqURL
  · rw [sendClipboard_of_refused env s msg err hreq]
    simp [State.emit, requests_append, requests, logLines_append, logLines]
  · rw [sendClipboard_of_built env s msg reqURL hreq]
    rcases hdo : env.clientDo s.trace (expectedRequest s.config reqURL msg) with err | resp <;>
      simp [State.emit, requests_append, requests, logLines_append, logLines, hdo]

/-- Reading the clipboard adds neither a request nor a log line. -/
theorem onHotkey_of_text (env : Env) (s : State) :
    onHotkey env s =
      if (env.readAll s.trace).1 = "" then s.emit [.clipboardRead]
      else sendClipboard env (s.emit [.clipboardRead]) (env.readAll s.trace).1 := by
  unfold onHotkey
  by_cases ht : (env.readAll s.trace).1 = "" <;> simp [ht]

/-- C5, as the code has it: `onHotkey` issues no request when the clipboard text is
empty; when `http.NewRequest` refuses the URL string `https://URLBase/TOPIC` it
issues no request and logs that error; otherwise it issues exactly one request, with
method `PUT`, the URL that `http.NewRequest` made of that string, the text as body,
header `Title` equal to the client name, and header `Authorization` equal to
`Bearer Token` present exactly when the token is non-empty; a transport error of
that one request is logged. -/
theorem onHotkey_requests (env : Env) (s : State) (reqURL : String) :
    requests (onHotkey env s).trace =
      requests s.trace ++
        (if (env.readAll s.trace).1 = "" then []
         else
          match env.newRequest "PUT" ("https://" ++ s.config.URLBase ++ "/" ++ s.config.TOPIC) with
          | .error _ => []
          | .ok built => [expectedRequest s.config built (env.readAll s.trace).1]) ∧
    logLines (onHotkey env s).trace =
      logLines s.trace ++
        (if (env.readAll s.trace).1 = "" then []
         else
          match env.newRequest "PUT" ("https://" ++ s.config.URLBase ++ "/" ++ s.config.TOPIC) with
          | .error err => ["创建请求错误: " ++ err]
          | .ok built =>
            match env.clientDo (s.trace ++ [.clipboardRead])
                (expectedRequest s.config built (env.readAll s.trace).1) with
            | .error err => ["发送剪贴板内容错误: " ++ err]
            | .ok _ => []) ∧
    (expectedRequest s.config reqURL (env.readAll s.trace).1).method = "PUT" ∧
    (expectedRequest s.config reqURL (env.readAll s.trace).1).url = reqURL ∧
    (expectedRequest s.config reqURL (env.readAll s.trace).1).body = (env.readAll s.trace).1 ∧
    headerGet (expectedRequest s.config reqURL (env.readAll s.trace).1).header "Title" =
      some s.config.ClientName ∧
    headerGet (expectedRequest s.config reqURL (env.readAll s.trace).1).header "Authorization" =
      (if s.config.Token = "" then none else some ("Bearer " ++ s.config.Token)) := by
  refine ⟨?_, ?_, rfl, rfl, rfl, ?_, ?_⟩
  · rw [onHotkey_of_text]
    by_cases ht : (env.readAll s.trace).1 = ""
    · simp [ht, State.emit, requests_append, requests]
    · simp only [ht, if_false]
      have h := (sendClipboard_observed env (s.emit [.clipboardRead]) (env.readAll s.trace).1).1
      simp only [State.emit, requests_append, requests, List.append_nil] at h
      exact h
  · rw [onHotkey_of_text]
    by_cases ht : (env.readAll s.trace).1 = ""
    · simp [ht, State.emit, logLines_append, logLines]
    · simp only [ht, if_false]
      have h := (sendClipboard_observed env (s.emit [.clipboardRead]) (env.readAll s.trace).1).2
      simp only [State.emit, logLines_append, logLines, List.append_nil] at h
      exact h
  · by_cases ht : s.config.Token = "" <;> simp [expectedRequest, headerGet, ht, List.find?]
  · by_cases ht : s.config.Token = "" <;> simp [expectedRequest, headerGet, ht, List.find?]

/-- C5 fails as stated, twice.  With the relay host `ntfy.sh` followed by a line
feed and the clipboard text `xyz`, `http.NewRequest` refuses the URL and `onHotkey`
issues no request although the text is non-empty.  With the topic `my topic`, the
one request carries the URL `https://ntfy.sh/my%20topic`, which is not the string
`https://` + URLBase + `/` + TOPIC. -/
theorem onHotkey_refused_url_no_request :
    ((envOk.readAll (initState cfgLineFeed).trace).1 = "xyz" ∧
      requests (onHotkey envOk (initState cfgLineFeed)).trace = [] ∧
      (logLines (onHotkey envOk (initState cfgLineFeed)).trace).length = 1) ∧
    ((requests (onHotkey envOk (initState cfgSpace)).trace).map (fun r => r.url) =
        ["https://ntfy.sh/my%20topic"] ∧
      "https://ntfy.sh/my%20topic" ≠ "https://" ++ cfgSpace.URLBase ++ "/" ++ cfgSpace.TOPIC) := by
  decide

/-- Witness of C5: scenario 5 of the specification (clipboard text `xyz`, token set). -/
theorem onHotkey_requests_witness :
    requests (onHotkey envOk (initState cfgToken)).trace =
      [{ method := "PUT", url := "https://ntfy.sh/t", body := "xyz",
         header := [("Authorization", "Bearer tk_secret"), ("Title", "A")] }] ∧
    logLines (onHotkey envOk (initState cfgLineFeed)).trace =
      ["创建请求错误: net/url: invalid control character in URL"] :=
  ⟨(onHotkey_requests envOk (initState cfgToken) "").1.trans (by decide),
   (onHotkey_requests envOk (initState cfgLineFeed) "").2.1.trans (by decide)⟩

/-- C9, as the code has it: once the request is built, `sendClipboard` hands exactly
one request to `client.Do`, whatever the outcome; a transport error adds one log
line, and a response, whatever its status, adds none. -/
theorem sendClipboard_no_retry (env : Env) (s : State) (msg reqURL : String)
    (hreq : env.newRequest "PUT" ("https://" ++ s.config.URLBase ++ "/" ++ s.config.TOPIC) = .ok reqURL) :
    requests (sendClipboard env s msg).trace =
      requests s.trace ++ [expectedRequest s.config reqURL msg] ∧
    logLines (sendClipboard env s msg).trace =
      logLines s.trace ++
        (match env.clientDo s.trace (expectedRequest s.config reqURL msg) with
         | .error err => ["发送剪贴板内容错误: " ++ err]
         | .ok _ => []) := by
  rw [sendClipboard_of_built env s msg reqURL hreq]
  cases env.clientDo s.trace (expectedRequest s.config reqURL msg) <;>
    simp [State.emit, requests_append, requests, logLines_append, logLines]

/-- Witness of C9: a publish of `xyz` that meets a refused TCP connection. -/
theorem sendClipboard_no_retry_witness :
    envNetDown.newRequest "PUT" ("https://" ++ (initState cfgA).config.URLBase ++ "/" ++
      (initState cfgA).config.TOPIC) = .ok "https://ntfy.sh/t" ∧
    requests (sendClipboard envNetDown (initState cfgA) "xyz").trace =
      requests (initState cfgA).trace ++
        [expectedRequest (initState cfgA).config "https://ntfy.sh/t" "xyz"] ∧
    logLines (sendClipboard envNetDown (initState cfgA) "xyz").trace =
      logLines (initState cfgA).trace ++
        (match envNetDown.clientDo (initState cfgA).trace
            (expectedRequest (initState cfgA).config "https://ntfy.sh/t" "xyz") with
         | .error err => ["发送剪贴板内容错误: " ++ err]
         | .ok _ => []) ∧
    logLines (sendClipboard envNetDown (initState cfgA) "xyz").trace =
      ["发送剪贴板内容错误: dial tcp: connection refused"] :=
  ⟨rfl,
    (sendClipboard_no_retry envNetDown (initState cfgA) "xyz" "https://ntfy.sh/t" rfl).1,
    (sendClipboard_no_retry envNetDown (initState cfgA) "xyz" "https://ntfy.sh/t" rfl).2,
    by decide⟩

/-- C9 fails as stated: a publish of `xyz` answered with status 500 issues its one
request and emits no log line. -/
theorem sendClipboard_status_not_logged :
    envStatus500.clientDo (initState cfgA).trace
        (expectedRequest cfgA "https://ntfy.sh/t" "xyz") = .ok { status := 500 } ∧
    requests (sendClipboard envStatus500 (initState cfgA) "xyz").trace =
      [expectedRequest cfgA "https://ntfy.sh/t" "xyz"] ∧
    logLines (sendClipboard envStatus500 (initState cfgA) "xyz").trace = [] :=
  ⟨rfl, by decide, by decide⟩

/-! ## The subscription loop -/

/-- The read loop touches `lastMsg` and appends to the trace; it never calls `Close`. -/
theorem readLoop_frame (env : Env) (conn : Conn) (frames : List Frame) :
    ∀ s : State, ∃ l es,
      readLoop env conn s frames = { s with lastMsg := l, trace := s.trace ++ es } ∧
      closes es = [] := by
  induction frames with
  | nil => intro s; exact ⟨s.lastMsg, [], by simp [readLoop], rfl⟩
  | cons f fs ih =>
    intro s
    obtain ⟨l1, es1, h1, hc1, _⟩ := onMessage_frame env (s.emit [.read conn]) f
    obtain ⟨l2, es2, h2, hc2⟩ := ih (onMessage env (s.emit [.read conn]) f)
    refine ⟨l2, [.read conn] ++ es1 ++ es2, ?_, ?_⟩
    · simp only [readLoop]
      rw [h2, h1]
      simp [State.emit]
    · simp [closes_append, closes, hc1, hc2]

/-- The read loop only appends to the trace. -/
theorem readLoop_trace_prefix (env : Env) (conn : Conn) (frames : List Frame) (s : State) :
    s.trace <+: (readLoop env conn s frames).trace := by
  obtain ⟨l, es, h, _⟩ := readLoop_frame env conn frames s
  rw [h]
  exact List.prefix_append _ _

/-- After a successful `Dial` the next event is a `ReadMessage` on the new connection. -/
theorem readLoop_starts_with_read (env : Env) (conn : Conn) (frames : List Frame) (s : State) :
    (s.trace ++ [.read conn]) <+: ((readLoop env conn s frames).emit [.read conn]).trace := by
  cases frames with
  | nil => simp [readLoop, State.emit]
  | cons f fs =>
    simp only [readLoop]
    have h1 : (s.emit [.read conn]).trace <+: (onMessage env (s.emit [.read conn]) f).trace :=
      onMessage_trace_prefix env _ f
    have h2 := readLoop_trace_prefix env conn fs (onMessage env (s.emit [.read conn]) f)
    have h3 : (readLoop env conn (onMessage env (s.emit [.read conn]) f) fs).trace <+:
        ((readLoop env conn (onMessage env (s.emit [.read conn]) f) fs).emit [.read conn]).trace :=
      List.prefix_append _ _
    exact (h1.trans h2).trans h3

/-- The loop `wssConnect` touches `lastMsg` and appends to the trace: it writes
neither `config` nor `wsConn`, and it never calls `Close`. -/
theorem wssConnect_frame (env : Env) (script : List DialOutcome) :
    ∀ (s : State) (deferred : List Conn), ∃ l es,
      (wssConnect env s deferred script).state =
        { s with lastMsg := l, trace := s.trace ++ es } ∧
      closes es = [] := by
  induction script with
  | nil => intro s deferred; exact ⟨s.lastMsg, [], by simp [wssConnect], rfl⟩
  | cons o script ih =>
    intro s deferred
    cases o with
    | fail err =>
      simp only [wssConnect]
      obtain ⟨l, es, h, hc⟩ := ih (s.emit [.dial (env.wssURL s.config.URLBase (s.config.TOPIC ++ "/ws"))
        (dialHeaders s.config) none, .log ("WebSocket 连接失败，5秒后重试: " ++ err), .sleep 5])
        deferred
      refine ⟨l, [.dial (env.wssURL s.config.URLBase (s.config.TOPIC ++ "/ws")) (dialHeaders s.config) none, .log ("WebSocket 连接失败，5秒后重试: " ++ err), .sleep 5] ++ es, ?_, ?_⟩
      · rw [h]
        simp only [State.emit, List.append_assoc]
      · simp [closes_append, closes, hc]
    | ok conn frames readErr =>
      obtain ⟨l1, es1, h1, hc1⟩ := readLoop_frame env conn frames
        (s.emit [.dial (env.wssURL s.config.URLBase (s.config.TOPIC ++ "/ws"))
          (dialHeaders s.config) (some conn), .log "WebSocket 连接成功，开始监听消息"])
      cases readErr with
      | none =>
        simp only [wssConnect]
        refine ⟨l1, [.dial (env.wssURL s.config.URLBase (s.config.TOPIC ++ "/ws")) (dialHeaders s.config) (some conn), .log "WebSocket 连接成功，开始监听消息"] ++ es1 ++ [.read conn], ?_, ?_⟩
        · rw [h1]
          simp only [State.emit, List.append_assoc]
        · simp [closes_append, closes, hc1]
      | some err =>
        simp only [wssConnect]
        obtain ⟨l, es, h, hc⟩ := ih (((readLoop env conn
          (s.emit [.dial (env.wssURL s.config.URLBase (s.config.TOPIC ++ "/ws"))
            (dialHeaders s.config) (some conn), .log "WebSocket 连接成功，开始监听消息"])
          frames).emit [.read conn]).emit [.log ("读取消息错误: " ++ err)]) (conn :: deferred)
        refine ⟨l, [.dial (env.wssURL s.config.URLBase (s.config.TOPIC ++ "/ws")) (dialHeaders s.config) (some conn), .log "WebSocket 连接成功，开始监听消息"] ++ es1 ++ [.read conn] ++ [.log ("读取消息错误: " ++ err)] ++ es, ?_, ?_⟩
        · rw [h, h1]
          simp only [State.emit, List.append_assoc]
        · simp [closes_append, closes, hc, hc1]

/-- The loop `wssConnect` never assigns the package-level variable `wsConn`. -/
theorem wssConnect_wsConn (env : Env) (s : State) (deferred : List Conn)
    (script : List DialOutcome) :
    (wssConnect env s deferred script).state.wsConn = s.wsConn := by
  obtain ⟨l, es, h, _⟩ := wssConnect_frame env script s deferred
  rw [h]

/-- The loop `wssConnect` never calls `Close`, whatever the network does. -/
theorem wssConnect_closes (env : Env) (s : State) (deferred : List Conn)
    (script : List DialOutcome) :
    closes (wssConnect env s deferred script).state.trace = closes s.trace := by
  obtain ⟨l, es, h, hc⟩ := wssConnect_frame env script s deferred
  rw [h]
  simp [closes_append, hc]

/-- The loop `wssConnect` only appends to the trace. -/
theorem wssConnect_trace_prefix (env : Env) (s : State) (deferred : List Conn)
    (script : List DialOutcome) :
    s.trace <+: (wssConnect env s deferred script).state.trace := by
  obtain ⟨l, es, h, _⟩ := wssConnect_frame env script s deferred
  rw [h]
  exact List.prefix_append _ _

/-- Counting `Dial`, `Sleep` and `ReadMessage` in a run of failed rounds. -/
theorem failedRounds_counts (u : String) (h : List (String × String)) (errs : List String) :
    dialCount (failedRounds u h errs) = errs.length ∧
    sleeps (failedRounds u h errs) = List.replicate errs.length 5 ∧
    reads (failedRounds u h errs) = [] := by
  induction errs with
  | nil => exact ⟨rfl, rfl, rfl⟩
  | cons e es ih =>
    obtain ⟨h1, h2, h3⟩ := ih
    refine ⟨?_, ?_, ?_⟩
    · simp [failedRounds, dialCount, h1]
    · simp [failedRounds, sleeps, h2, List.replicate_succ]
    · simp [failedRounds, reads, h3]

/-- The trace of `wssConnect` for failed dials followed by a successful one. -/
theorem wssConnect_after_failures (env : Env) (errs : List String) (c : Conn)
    (frames : List Frame) (readErr : Option String) (rest : List DialOutcome) :
    ∀ (s : State) (deferred : List Conn),
      (s.trace ++
        (failedRounds (env.wssURL s.config.URLBase (s.config.TOPIC ++ "/ws"))
            (dialHeaders s.config) errs ++
          [.dial (env.wssURL s.config.URLBase (s.config.TOPIC ++ "/ws"))
              (dialHeaders s.config) (some c),
           .log "WebSocket 连接成功，开始监听消息"]) ++
        [.read c]) <+:
      (wssConnect env s deferred
        (errs.map DialOutcome.fail ++ DialOutcome.ok c frames readErr :: rest)).state.trace := by
  induction errs with
  | nil =>
    intro s deferred
    have hread := readLoop_starts_with_read env c frames
      (s.emit [.dial (env.wssURL s.config.URLBase (s.config.TOPIC ++ "/ws"))
        (dialHeaders s.config) (some c), .log "WebSocket 连接成功，开始监听消息"])
    cases readErr with
    | none =>
      simp only [List.map_nil, List.nil_append, wssConnect, failedRounds]
      simpa [State.emit] using hread
    | some err =>
      simp only [List.map_nil, List.nil_append, wssConnect, failedRounds]
      have hrest := wssConnect_trace_prefix env
        (((readLoop env c
          (s.emit [.dial (env.wssURL s.config.URLBase (s.config.TOPIC ++ "/ws"))
            (dialHeaders s.config) (some c), .log "WebSocket 连接成功，开始监听消息"])
          frames).emit [.read c]).emit [.log ("读取消息错误: " ++ err)]) (c :: deferred) rest
      have hlog : ((readLoop env c
          (s.emit [.dial (env.wssURL s.config.URLBase (s.config.TOPIC ++ "/ws"))
            (dialHeaders s.config) (some c), .log "WebSocket 连接成功，开始监听消息"])
          frames).emit [.read c]).trace <+:
          (((readLoop env c
          (s.emit [.dial (env.wssURL s.config.URLBase (s.config.TOPIC ++ "/ws"))
            (dialHeaders s.config) (some c), .log "WebSocket 连接成功，开始监听消息"])
          frames).emit [.read c]).emit [.log ("读取消息错误: " ++ err)]).trace :=
        List.prefix_append _ _
      have := (hread.trans hlog).trans hrest
      simpa [State.emit] using this
  | cons e es ih =>
    intro s deferred
    have h := ih (s.emit [.dial (env.wssURL s.config.URLBase (s.config.TOPIC ++ "/ws"))
        (dialHeaders s.config) none, .log ("WebSocket 连接失败，5秒后重试: " ++ e), .sleep 5])
        deferred
    simp only [List.map_cons, List.cons_append, wssConnect, failedRounds]
    simpa [State.emit] using h

/-- C6: when the first `N` dials fail and the next one succeeds, the trace of
`wssConnect` starts with `N` rounds of (dial, log line, one sleep of 5 seconds), then
the successful dial and its log line, then the first `ReadMessage`; so `N + 1` dials,
`N` sleeps of 5 seconds and no read come before that first read. -/
theorem wssConnect_reconnect (env : Env) (s : State) (deferred : List Conn)
    (errs : List String) (c : Conn) (frames : List Frame) (readErr : Option String)
    (rest : List DialOutcome) :
    (s.trace ++
      (failedRounds (env.wssURL s.config.URLBase (s.config.TOPIC ++ "/ws"))
          (dialHeaders s.config) errs ++
        [.dial (env.wssURL s.config.URLBase (s.config.TOPIC ++ "/ws"))
            (dialHeaders s.config) (some c),
         .log "WebSocket 连接成功，开始监听消息"]) ++
      [.read c]) <+:
      (wssConnect env s deferred
        (errs.map DialOutcome.fail ++ DialOutcome.ok c frames readErr :: rest)).state.trace ∧
    dialCount
      (failedRounds (env.wssURL s.config.URLBase (s.config.TOPIC ++ "/ws"))
          (dialHeaders s.config) errs ++
        [.dial (env.wssURL s.config.URLBase (s.config.TOPIC ++ "/ws"))
            (dialHeaders s.config) (some c),
         .log "WebSocket 连接成功，开始监听消息"]) = errs.length + 1 ∧
    sleeps
      (failedRounds (env.wssURL s.config.URLBase (s.config.TOPIC ++ "/ws"))
          (dialHeaders s.config) errs ++
        [.dial (env.wssURL s.config.URLBase (s.config.TOPIC ++ "/ws"))
            (dialHeaders s.config) (some c),
         .log "WebSocket 连接成功，开始监听消息"]) = List.replicate errs.length 5 ∧
    reads
      (failedRounds (env.wssURL s.config.URLBase (s.config.TOPIC ++ "/ws"))
          (dialHeaders s.config) errs ++
        [.dial (env.wssURL s.config.URLBase (s.config.TOPIC ++ "/ws"))
            (dialHeaders s.config) (some c),
         .log "WebSocket 连接成功，开始监听消息"]) = [] := by
  obtain ⟨h1, h2, h3⟩ := failedRounds_counts
    (env.wssURL s.config.URLBase (s.config.TOPIC ++ "/ws")) (dialHeaders s.config) errs
  refine ⟨wssConnect_after_failures env errs c frames readErr rest s deferred, ?_, ?_, ?_⟩
  · simp [dialCount_append, dialCount, h1]
  · simp [sleeps_append, sleeps, h2]
  · simp [reads_append, reads, h3]

/-- C7 fails on the code: a first connection whose read fails, then a second
successful dial.  No `Close` is ever called: both connections are open, and both
`Close` calls registered by `defer` still wait for `wssConnect` to return. -/
theorem wssConnect_leaves_connections_open (env : Env) (cfg : Config) :
    closes (wssConnect env (initState cfg) []
      [.ok 1 [] (some "EOF"), .ok 2 [] none]).state.trace = [] ∧
    openConns (wssConnect env (initState cfg) []
      [.ok 1 [] (some "EOF"), .ok 2 [] none]).state.trace = [1, 2] ∧
    (wssConnect env (initState cfg) []
      [.ok 1 [] (some "EOF"), .ok 2 [] none]).deferred = [2, 1] ∧
    (wssConnect env (initState cfg) []
      [.ok 1 [] (some "EOF"), .ok 2 [] none]).conn = some 2 := by
  refine ⟨?_, ?_, ?_, ?_⟩ <;>
    simp [wssConnect, readLoop, State.emit, initState, closes, openConns, dialled]

/-- C8 fails on the code: with a connection established and waiting in
`ReadMessage`, the variable `wsConn` is still `nil`, so `onExit` calls `hook.End`
only and no `Close`. -/
theorem onExit_leaves_connection_open (env : Env) (cfg : Config) (frames : List Frame) :
    (wssConnect env (initState cfg) [] [.ok 1 frames none]).conn = some 1 ∧
    (wssConnect env (initState cfg) [] [.ok 1 frames none]).state.wsConn = none ∧
    (onExit env (wssConnect env (initState cfg) [] [.ok 1 frames none]).state).trace =
      (wssConnect env (initState cfg) [] [.ok 1 frames none]).state.trace ++ [.hookEnd] ∧
    closes (onExit env (wssConnect env (initState cfg) [] [.ok 1 frames none]).state).trace =
      [] := by
  have hws := wssConnect_wsConn env (initState cfg) [] [.ok 1 frames none]
  have hcl := wssConnect_closes env (initState cfg) [] [.ok 1 frames none]
  have hexit : (onExit env (wssConnect env (initState cfg) [] [.ok 1 frames none]).state).trace =
      (wssConnect env (initState cfg) [] [.ok 1 frames none]).state.trace ++ [.hookEnd] := by
    unfold onExit
    rw [hws]
    rfl
  refine ⟨by simp [wssConnect], hws, hexit, ?_⟩
  rw [hexit, closes_append, hcl]
  rfl

end NtfyClipboard
